import Mathlib

/-!
Verification of the bright-js client library core: the error-classification
taxonomy (`src/errors.ts`) and the typed query compiler plus the
existence-probe helpers of the client (`src/types.ts` and the client module).

JavaScript runtime values are shallowly embedded: optional values become
`Option`, JS truthiness is modelled per type (a number is truthy iff nonzero,
a string iff nonempty, an object always), template-literal interpolation of
the scalars that occur in queries becomes `jsToString`, and the prototype
chain used by `instanceof` becomes an explicit parent relation on the
error-class tags.
-/

namespace BrightJs

/-- Scalar values that flow into query interpolation: JS numbers (restricted
to integers, which print as their decimal representation, as in JS),
strings and booleans. -/
inductive Scalar where
  | num (n : Int)
  | str (s : String)
  | bool (b : Bool)
deriving DecidableEq, Repr

/-- JS template-literal stringification of a scalar. -/
def jsToString : Scalar → String
  | .num n => toString n
  | .str s => s
  | .bool b => if b then "true" else "false"

/-- Values stored in a `details` record (`Record<string, unknown>`),
restricted to the shapes the code inspects. -/
inductive JSVal where
  | str (s : String)
  | num (n : Int)
  | bool (b : Bool)
  | undefined
deriving DecidableEq, Repr

/-- A `details` object: ordered key/value pairs. -/
abbrev Details := List (String × JSVal)

/-- Property access `details?.leaderUrl`: `undefined` when the object is
absent or lacks the key. -/
def jsGet (d : Option Details) (k : String) : JSVal :=
  match d with
  | none => .undefined
  | some l =>
    match l.lookup k with
    | some v => v
    | none => .undefined

/-- `typeof details?.leaderUrl === 'string' ? details.leaderUrl : undefined`
(errors.ts line 309). -/
def leaderUrlOf (d : Option Details) : Option String :=
  match jsGet d "leaderUrl" with
  | .str s => some s
  | _ => none

/-- The runtime class of a constructed error: one tag per class declared in
`errors.ts`. -/
inductive ErrClass where
  | BrightError
  | ValidationError
  | MissingParameterError
  | InvalidParameterError
  | InvalidRequestBodyError
  | ConflictingParametersError
  | InvalidFormatError
  | ParseError
  | NotFoundError
  | IndexNotFoundError
  | DocumentNotFoundError
  | ClusterError
  | NotLeaderError
  | ClusterUnavailableError
  | AuthorizationError
  | InsufficientPermissionsError
  | LeaderOnlyOperationError
  | ConflictError
  | ResourceAlreadyExistsError
  | InternalError
  | UuidGenerationFailedError
  | SerializationFailedError
  | RaftApplyFailedError
  | IndexOperationFailedError
  | DocumentOperationFailedError
  | BatchOperationFailedError
  | SearchFailedError
deriving DecidableEq, Repr

/-- The `extends` relation of `errors.ts` (one step of the prototype chain);
`BrightError` extends the built-in `Error`, outside the taxonomy. -/
def parentOf : ErrClass → Option ErrClass
  | .BrightError => none
  | .ValidationError => some .BrightError
  | .MissingParameterError => some .ValidationError
  | .InvalidParameterError => some .ValidationError
  | .InvalidRequestBodyError => some .ValidationError
  | .ConflictingParametersError => some .ValidationError
  | .InvalidFormatError => some .ValidationError
  | .ParseError => some .ValidationError
  | .NotFoundError => some .BrightError
  | .IndexNotFoundError => some .NotFoundError
  | .DocumentNotFoundError => some .NotFoundError
  | .ClusterError => some .BrightError
  | .NotLeaderError => some .ClusterError
  | .ClusterUnavailableError => some .ClusterError
  | .AuthorizationError => some .BrightError
  | .InsufficientPermissionsError => some .AuthorizationError
  | .LeaderOnlyOperationError => some .AuthorizationError
  | .ConflictError => some .BrightError
  | .ResourceAlreadyExistsError => some .ConflictError
  | .InternalError => some .BrightError
  | .UuidGenerationFailedError => some .InternalError
  | .SerializationFailedError => some .InternalError
  | .RaftApplyFailedError => some .InternalError
  | .IndexOperationFailedError => some .InternalError
  | .DocumentOperationFailedError => some .InternalError
  | .BatchOperationFailedError => some .InternalError
  | .SearchFailedError => some .InternalError

/-- `instanceof`: walk the prototype chain (depth at most 3 in this
hierarchy). -/
def instanceOfCls (c target : ErrClass) : Bool :=
  c = target ||
    match parentOf c with
    | none => false
    | some p =>
      p = target ||
        match parentOf p with
        | none => false
        | some q =>
          q = target ||
            match parentOf q with
            | none => false
            | some r => r = target

/-- A constructed error value: runtime class plus the fields every
`BrightError` carries; `leaderUrl` is populated only by `NotLeaderError`. -/
structure BrightErrorVal where
  cls : ErrClass
  message : String
  statusCode : Int
  code : Option String
  details : Option Details
  leaderUrl : Option String := none
deriving DecidableEq, Repr

/-- `new BrightError(message, statusCode, code, details)`. -/
def BrightError (message : String) (statusCode : Int) (code : Option String)
    (details : Option Details) : BrightErrorVal :=
  { cls := .BrightError, message := message, statusCode := statusCode,
    code := code, details := details }

/-- `new ValidationError(message, code, details)`: status fixed at 400. -/
def ValidationError (message : String) (code : Option String)
    (details : Option Details) : BrightErrorVal :=
  { BrightError message 400 code details with cls := .ValidationError }

/-- `new MissingParameterError(message, details)`. -/
def MissingParameterError (message : String) (details : Option Details) : BrightErrorVal :=
  { ValidationError message (some "MISSING_PARAMETER") details with cls := .MissingParameterError }

/-- `new InvalidParameterError(message, details)`. -/
def InvalidParameterError (message : String) (details : Option Details) : BrightErrorVal :=
  { ValidationError message (some "INVALID_PARAMETER") details with cls := .InvalidParameterError }

/-- `new InvalidRequestBodyError(message, details)`. -/
def InvalidRequestBodyError (message : String) (details : Option Details) : BrightErrorVal :=
  { ValidationError message (some "INVALID_REQUEST_BODY") details with cls := .InvalidRequestBodyError }

/-- `new ConflictingParametersError(message, details)`. -/
def ConflictingParametersError (message : String) (details : Option Details) : BrightErrorVal :=
  { ValidationError message (some "CONFLICTING_PARAMETERS") details with cls := .ConflictingParametersError }

/-- `new InvalidFormatError(message, details)`. -/
def InvalidFormatError (message : String) (details : Option Details) : BrightErrorVal :=
  { ValidationError message (some "INVALID_FORMAT") details with cls := .InvalidFormatError }

/-- `new ParseError(message, details)`. -/
def ParseError (message : String) (details : Option Details) : BrightErrorVal :=
  { ValidationError message (some "PARSE_ERROR") details with cls := .ParseError }

/-- `new NotFoundError(message, code, details)`: status fixed at 404. -/
def NotFoundError (message : String) (code : Option String)
    (details : Option Details) : BrightErrorVal :=
  { BrightError message 404 code details with cls := .NotFoundError }

/-- `new IndexNotFoundError(message, details)`. -/
def IndexNotFoundError (message : String) (details : Option Details) : BrightErrorVal :=
  { NotFoundError message (some "INDEX_NOT_FOUND") details with cls := .IndexNotFoundError }

/-- `new DocumentNotFoundError(message, details)`. -/
def DocumentNotFoundError (message : String) (details : Option Details) : BrightErrorVal :=
  { NotFoundError message (some "DOCUMENT_NOT_FOUND") details with cls := .DocumentNotFoundError }

/-- `new ClusterError(message, statusCode, code, details)`. -/
def ClusterError (message : String) (statusCode : Int) (code : Option String)
    (details : Option Details) : BrightErrorVal :=
  { BrightError message statusCode code details with cls := .ClusterError }

/-- `new NotLeaderError(message, leaderUrl, details)`: status 307, code
`NOT_LEADER`, carries the extracted leader URL. -/
def NotLeaderError (message : String) (leaderUrl : Option String)
    (details : Option Details) : BrightErrorVal :=
  { ClusterError message 307 (some "NOT_LEADER") details with
      cls := .NotLeaderError, leaderUrl := leaderUrl }

/-- `new ClusterUnavailableError(message, details)`: status 503. -/
def ClusterUnavailableError (message : String) (details : Option Details) : BrightErrorVal :=
  { ClusterError message 503 (some "CLUSTER_UNAVAILABLE") details with cls := .ClusterUnavailableError }

/-- `new AuthorizationError(message, code, details)`: status fixed at 403. -/
def AuthorizationError (message : String) (code : Option String)
    (details : Option Details) : BrightErrorVal :=
  { BrightError message 403 code details with cls := .AuthorizationError }

/-- `new InsufficientPermissionsError(message, details)`. -/
def InsufficientPermissionsError (message : String) (details : Option Details) : BrightErrorVal :=
  { AuthorizationError message (some "INSUFFICIENT_PERMISSIONS") details with cls := .InsufficientPermissionsError }

/-- `new LeaderOnlyOperationError(message, details)`. -/
def LeaderOnlyOperationError (message : String) (details : Option Details) : BrightErrorVal :=
  { AuthorizationError message (some "LEADER_ONLY_OPERATION") details with cls := .LeaderOnlyOperationError }

/-- `new ConflictError(message, code, details)`: status fixed at 409. -/
def ConflictError (message : String) (code : Option String)
    (details : Option Details) : BrightErrorVal :=
  { BrightError message 409 code details with cls := .ConflictError }

/-- `new ResourceAlreadyExistsError(message, details)`. -/
def ResourceAlreadyExistsError (message : String) (details : Option Details) : BrightErrorVal :=
  { ConflictError message (some "RESOURCE_ALREADY_EXISTS") details with cls := .ResourceAlreadyExistsError }

/-- `new InternalError(message, code, details)`: status fixed at 500. -/
def InternalError (message : String) (code : Option String)
    (details : Option Details) : BrightErrorVal :=
  { BrightError message 500 code details with cls := .InternalError }

/-- `new UuidGenerationFailedError(message, details)`. -/
def UuidGenerationFailedError (message : String) (details : Option Details) : BrightErrorVal :=
  { InternalError message (some "UUID_GENERATION_FAILED") details with cls := .UuidGenerationFailedError }

/-- `new SerializationFailedError(message, details)`. -/
def SerializationFailedError (message : String) (details : Option Details) : BrightErrorVal :=
  { InternalError message (some "SERIALIZATION_FAILED") details with cls := .SerializationFailedError }

/-- `new RaftApplyFailedError(message, details)`. -/
def RaftApplyFailedError (message : String) (details : Option Details) : BrightErrorVal :=
  { InternalError message (some "RAFT_APPLY_FAILED") details with cls := .RaftApplyFailedError }

/-- `new IndexOperationFailedError(message, details)`. -/
def IndexOperationFailedError (message : String) (details : Option Details) : BrightErrorVal :=
  { InternalError message (some "INDEX_OPERATION_FAILED") details with cls := .IndexOperationFailedError }

/-- `new DocumentOperationFailedError(message, details)`. -/
def DocumentOperationFailedError (message : String) (details : Option Details) : BrightErrorVal :=
  { InternalError message (some "DOCUMENT_OPERATION_FAILED") details with cls := .DocumentOperationFailedError }

/-- `new BatchOperationFailedError(message, details)`. -/
def BatchOperationFailedError (message : String) (details : Option Details) : BrightErrorVal :=
  { InternalError message (some "BATCH_OPERATION_FAILED") details with cls := .BatchOperationFailedError }

/-- `new SearchFailedError(message, details)`. -/
def SearchFailedError (message : String) (details : Option Details) : BrightErrorVal :=
  { InternalError message (some "SEARCH_FAILED") details with cls := .SearchFailedError }

/-- The wire error envelope `{error, code?, details?}`; `code` is kept as a
raw string, since at runtime a newer server may send a value outside the
`ErrorCode` union. -/
structure BrightErrorResponse where
  error : String
  code : Option String
  details : Option Details
deriving DecidableEq, Repr

/-- The `switch (code)` of `createBrightError` (errors.ts lines 286-342):
`some` on the 20 recognized codes, `none` when the switch falls through. -/
def codeDispatch (message : String) (code : String) (details : Option Details) :
    Option BrightErrorVal :=
  match code with
  | "MISSING_PARAMETER" => some (MissingParameterError message details)
  | "INVALID_PARAMETER" => some (InvalidParameterError message details)
  | "INVALID_REQUEST_BODY" => some (InvalidRequestBodyError message details)
  | "CONFLICTING_PARAMETERS" => some (ConflictingParametersError message details)
  | "INVALID_FORMAT" => some (InvalidFormatError message details)
  | "PARSE_ERROR" => some (ParseError message details)
  | "INDEX_NOT_FOUND" => some (IndexNotFoundError message details)
  | "DOCUMENT_NOT_FOUND" => some (DocumentNotFoundError message details)
  | "NOT_LEADER" => some (NotLeaderError message (leaderUrlOf details) details)
  | "CLUSTER_UNAVAILABLE" => some (ClusterUnavailableError message details)
  | "INSUFFICIENT_PERMISSIONS" => some (InsufficientPermissionsError message details)
  | "LEADER_ONLY_OPERATION" => some (LeaderOnlyOperationError message details)
  | "RESOURCE_ALREADY_EXISTS" => some (ResourceAlreadyExistsError message details)
  | "UUID_GENERATION_FAILED" => some (UuidGenerationFailedError message details)
  | "SERIALIZATION_FAILED" => some (SerializationFailedError message details)
  | "RAFT_APPLY_FAILED" => some (RaftApplyFailedError message details)
  | "INDEX_OPERATION_FAILED" => some (IndexOperationFailedError message details)
  | "DOCUMENT_OPERATION_FAILED" => some (DocumentOperationFailedError message details)
  | "BATCH_OPERATION_FAILED" => some (BatchOperationFailedError message details)
  | "INTERNAL_ERROR" => some (InternalError message (some "INTERNAL_ERROR") details)
  | "SEARCH_FAILED" => some (SearchFailedError message details)
  | _ => none

/-- The `switch (statusCode)` fallback of `createBrightError`
(errors.ts lines 346-362). -/
def statusFallback (statusCode : Int) (message : String) (code : Option String)
    (details : Option Details) : BrightErrorVal :=
  if statusCode = 400 then ValidationError message code details
  else if statusCode = 404 then NotFoundError message code details
  else if statusCode = 403 then AuthorizationError message code details
  else if statusCode = 409 then ConflictError message code details
  else if statusCode = 307 ∨ statusCode = 503 then ClusterError message statusCode code details
  else if statusCode = 500 then InternalError message code details
  else BrightError message statusCode code details

/-- `createBrightError(statusCode, errorResponse)` (errors.ts lines 278-363):
dispatch on a truthy `code` first (`if (code)` is false for `undefined` and
for the empty string), falling back to the status-code table when the code is
missing, falsy, or not in the switch. -/
def createBrightError (statusCode : Int) (errorResponse : BrightErrorResponse) :
    BrightErrorVal :=
  let message := errorResponse.error
  let details := errorResponse.details
  match errorResponse.code with
  | some c =>
    if c = "" then statusFallback statusCode message (some c) details
    else
      match codeDispatch message c details with
      | some e => e
      | none => statusFallback statusCode message (some c) details
  | none => statusFallback statusCode message none details

/-- One entry value of a `FieldFilter<T>` as seen at runtime: the key may be
set to `undefined`, to a bare scalar, or to an object `{value, boost?}`
(recognized by the `'value' in val` test). -/
inductive FilterVal where
  | undefined
  | scalar (s : Scalar)
  | withValue (value : Scalar) (boost : Option Int)
deriving DecidableEq, Repr

/-- A `RangeFilter` object `{gt?, gte?, lt?, lte?}`. -/
structure RangeFilter where
  gt : Option Scalar := none
  gte : Option Scalar := none
  lt : Option Scalar := none
  lte : Option Scalar := none
deriving DecidableEq, Repr

/-- One entry value of a `FieldRangeFilter<T>` at runtime: the key may be set
to `undefined` or to a bounds object. -/
inductive RangeVal where
  | undefined
  | bounds (r : RangeFilter)
deriving DecidableEq, Repr

/-- The clauses pushed for one `filter` entry by the first loop of
`buildQueryFromFilters`: skip `undefined`, use the boost form for objects
carrying a `value` key (`boost ? ... : ...` tests JS truthiness, so a boost
of 0 takes the bare form), and interpolate bare scalars directly. -/
def filterEntryClauses : String × FilterVal → List String
  | (_, .undefined) => []
  | (key, .withValue value boost) =>
    match boost with
    | some b =>
      if b ≠ 0 then [key ++ ":" ++ jsToString value ++ "^" ++ toString b]
      else [key ++ ":" ++ jsToString value]
    | none => [key ++ ":" ++ jsToString value]
  | (key, .scalar v) => [key ++ ":" ++ jsToString v]

/-- The clauses pushed for one `range` entry by the second loop of
`buildQueryFromFilters`: skip `undefined`, then one clause per defined bound
in the order `gt, gte, lt, lte`. -/
def rangeEntryClauses : String × RangeVal → List String
  | (_, .undefined) => []
  | (key, .bounds r) =>
    (match r.gt with | some x => [key ++ ":>" ++ jsToString x] | none => []) ++
    (match r.gte with | some x => [key ++ ":>=" ++ jsToString x] | none => []) ++
    (match r.lt with | some x => [key ++ ":<" ++ jsToString x] | none => []) ++
    (match r.lte with | some x => [key ++ ":<=" ++ jsToString x] | none => [])

/-- `buildQueryFromFilters(filter, range)`: accumulate the clauses of both
loops in order and `join(' ')` them. `none` models an `undefined` argument
(an empty object iterates zero times and contributes nothing). -/
def buildQueryFromFilters (filter : Option (List (String × FilterVal)))
    (range : Option (List (String × RangeVal))) : String :=
  let parts :=
    (match filter with
     | some f => (f.map filterEntryClauses).flatten
     | none => []) ++
    (match range with
     | some r => (r.map rangeEntryClauses).flatten
     | none => [])
  " ".intercalate parts

/-- `field(name, value, boost?)` from `types.ts`: `boost ? base^boost : base`
(JS truthiness again). -/
def field (name : String) (value : Scalar) (boost : Option Int) : String :=
  let base := name ++ ":" ++ jsToString value
  match boost with
  | some b => if b ≠ 0 then base ++ "^" ++ toString b else base
  | none => base

/-- `range(name, filter)` from `types.ts`: one clause per defined bound in
the order `gt, gte, lt, lte`, joined by single spaces. -/
def range (name : String) (filter : RangeFilter) : String :=
  let parts :=
    (match filter.gt with | some x => [name ++ ":>" ++ jsToString x] | none => []) ++
    (match filter.gte with | some x => [name ++ ":>=" ++ jsToString x] | none => []) ++
    (match filter.lt with | some x => [name ++ ":<" ++ jsToString x] | none => []) ++
    (match filter.lte with | some x => [name ++ ":<=" ++ jsToString x] | none => [])
  " ".intercalate parts

/-- Sort direction. -/
inductive SortOrder where
  | asc
  | desc
deriving DecidableEq, Repr

/-- A `SortField<T>` value at runtime: either a string (bare field name or a
descending-prefixed form) or an object `{field, order?}` (the runtime
tolerates a missing `order`). -/
inductive SortField where
  | str (s : String)
  | obj (field : String) (order : Option SortOrder)
deriving DecidableEq, Repr

/-- `normalizeSortField(sort)`: the object form serializes to
`order === 'desc' ? '-' + field : field`; a string serializes to itself. -/
def normalizeSortField : SortField → String
  | .obj f ord => if ord = some SortOrder.desc then "-" ++ f else f
  | .str s => s

/-- The slice of `SearchParams<T>` that the client serializes. -/
structure SearchParams where
  q : Option String := none
  filter : Option (List (String × FilterVal)) := none
  range : Option (List (String × RangeVal)) := none
  offset : Option Int := none
  limit : Option Int := none
  page : Option Int := none
  sort : Option (List SortField) := none
  attributesToRetrieve : Option (List String) := none
  attributesToExclude : Option (List String) := none
deriving DecidableEq, Repr

/-- `[params?.q, filterQuery].filter(Boolean).join(' ')` from `search`:
`filter(Boolean)` drops `undefined` and empty strings. -/
def fullQueryOf (params : Option SearchParams) : String :=
  let filterQuery :=
    buildQueryFromFilters (params.bind SearchParams.filter) (params.bind SearchParams.range)
  " ".intercalate
    (([params.bind SearchParams.q, some filterQuery]).filterMap
      (fun s =>
        match s with
        | some t => if t = "" then none else some t
        | none => none))

/-- The appends performed by `search` after the `q` parameter:
`offset`/`limit`/`page` only when truthy (present and nonzero), then the
`sort[]`, `attributesToRetrieve[]` and `attributesToExclude[]` appends. -/
def searchTail (params : Option SearchParams) : List (String × String) :=
  (match params.bind SearchParams.offset with
   | some n => if n ≠ 0 then [("offset", toString n)] else []
   | none => []) ++
  (match params.bind SearchParams.limit with
   | some n => if n ≠ 0 then [("limit", toString n)] else []
   | none => []) ++
  (match params.bind SearchParams.page with
   | some n => if n ≠ 0 then [("page", toString n)] else []
   | none => []) ++
  (match params.bind SearchParams.sort with
   | some ss => ss.map (fun s => ("sort[]", normalizeSortField s))
   | none => []) ++
  (match params.bind SearchParams.attributesToRetrieve with
   | some attrs => attrs.map (fun a => ("attributesToRetrieve[]", a))
   | none => []) ++
  (match params.bind SearchParams.attributesToExclude with
   | some attrs => attrs.map (fun a => ("attributesToExclude[]", a))
   | none => [])

/-- The `URLSearchParams` built by `search`, as the ordered list of appended
`(key, value)` pairs: `q` first, appended only when the full query is truthy
(nonempty), followed by the remaining appends of `searchTail`. -/
def searchParamsList (params : Option SearchParams) : List (String × String) :=
  let fullQuery := fullQueryOf params
  (if fullQuery ≠ "" then [("q", fullQuery)] else []) ++ searchTail params

/-- `indexExists(id)`: the argument is the outcome of the inner
`this.request` GET; a thrown `NotFoundError` (by `instanceof`, so any class
in the not-found subtree) becomes `false`, success becomes `true`, every
other error is re-thrown unchanged. -/
def indexExists (fetchResult : Except BrightErrorVal Unit) : Except BrightErrorVal Bool :=
  match fetchResult with
  | .ok _ => .ok true
  | .error e =>
    if instanceOfCls e.cls ErrClass.NotFoundError then .ok false
    else .error e

/-- `ingressExists(indexId, ingressId)`: same try/catch policy as
`indexExists`, over the ingress GET. -/
def ingressExists (fetchResult : Except BrightErrorVal Unit) : Except BrightErrorVal Bool :=
  match fetchResult with
  | .ok _ => .ok true
  | .error e =>
    if instanceOfCls e.cls ErrClass.NotFoundError then .ok false
    else .error e

/-! ## Shared lemmas -/

/-- Every error built by the code-dispatch switch carries the matched code. -/
theorem codeDispatch_code (msg c : String) (d : Option Details) (e : BrightErrorVal)
    (h : codeDispatch msg c d = some e) : e.code = some c := by
  unfold codeDispatch at h
  split at h
  all_goals first
    | (injection h with h; subst h; rfl)
    | exact Option.noConfusion h

/-- The status-code fallback forwards the envelope's code verbatim. -/
theorem statusFallback_code (s : Int) (m : String) (co : Option String) (d : Option Details) :
    (statusFallback s m co d).code = co := by
  unfold statusFallback
  split_ifs <;> rfl

/-- The status-code fallback preserves the wire status on the instance. -/
theorem statusFallback_statusCode (s : Int) (m : String) (co : Option String)
    (d : Option Details) : (statusFallback s m co d).statusCode = s := by
  unfold statusFallback
  split_ifs with h1 h2 h3 h4 h5 h6 <;>
    simp [ValidationError, NotFoundError, AuthorizationError, ConflictError, ClusterError,
      InternalError, BrightError, *]

/-- When a truthy code hits the switch, `createBrightError` returns the
dispatched error, for every status code. -/
theorem createBrightError_dispatch (s : Int) (msg c : String) (d : Option Details)
    (e : BrightErrorVal) (hc : c ≠ "") (h : codeDispatch msg c d = some e) :
    createBrightError s ⟨msg, some c, d⟩ = e := by
  unfold createBrightError
  simp [hc, h]

/-- When the code misses the switch (or is falsy), `createBrightError`
falls back to the status-code table. -/
theorem createBrightError_missDispatch (s : Int) (msg c : String) (d : Option Details)
    (h : codeDispatch msg c d = none) :
    createBrightError s ⟨msg, some c, d⟩ = statusFallback s msg (some c) d := by
  unfold createBrightError
  by_cases hc : c = "" <;> simp [hc, h]

/-- Without a code, `createBrightError` is the status-code fallback. -/
theorem createBrightError_noCode (s : Int) (msg : String) (d : Option Details) :
    createBrightError s ⟨msg, none, d⟩ = statusFallback s msg none d := rfl

/-! ## Claims -/

/-- The members of the `ErrorCode` union (errors.ts lines 1-28), in source
order. -/
def ErrorCodeValues : List String :=
  ["MISSING_PARAMETER", "INVALID_PARAMETER", "INVALID_REQUEST_BODY",
   "CONFLICTING_PARAMETERS", "INVALID_FORMAT", "PARSE_ERROR",
   "INDEX_NOT_FOUND", "DOCUMENT_NOT_FOUND",
   "NOT_LEADER", "CLUSTER_UNAVAILABLE",
   "INSUFFICIENT_PERMISSIONS", "LEADER_ONLY_OPERATION",
   "RESOURCE_ALREADY_EXISTS",
   "UUID_GENERATION_FAILED", "SERIALIZATION_FAILED", "RAFT_APPLY_FAILED",
   "INDEX_OPERATION_FAILED", "DOCUMENT_OPERATION_FAILED",
   "BATCH_OPERATION_FAILED", "SEARCH_FAILED", "INTERNAL_ERROR"]

/-- The `ErrorCode` values paired with the concrete class the lookup table
of `createBrightError` associates to each. -/
def codeVariants : List (String × ErrClass) :=
  [("MISSING_PARAMETER", .MissingParameterError),
   ("INVALID_PARAMETER", .InvalidParameterError),
   ("INVALID_REQUEST_BODY", .InvalidRequestBodyError),
   ("CONFLICTING_PARAMETERS", .ConflictingParametersError),
   ("INVALID_FORMAT", .InvalidFormatError),
   ("PARSE_ERROR", .ParseError),
   ("INDEX_NOT_FOUND", .IndexNotFoundError),
   ("DOCUMENT_NOT_FOUND", .DocumentNotFoundError),
   ("NOT_LEADER", .NotLeaderError),
   ("CLUSTER_UNAVAILABLE", .ClusterUnavailableError),
   ("INSUFFICIENT_PERMISSIONS", .InsufficientPermissionsError),
   ("LEADER_ONLY_OPERATION", .LeaderOnlyOperationError),
   ("RESOURCE_ALREADY_EXISTS", .ResourceAlreadyExistsError),
   ("UUID_GENERATION_FAILED", .UuidGenerationFailedError),
   ("SERIALIZATION_FAILED", .SerializationFailedError),
   ("RAFT_APPLY_FAILED", .RaftApplyFailedError),
   ("INDEX_OPERATION_FAILED", .IndexOperationFailedError),
   ("DOCUMENT_OPERATION_FAILED", .DocumentOperationFailedError),
   ("BATCH_OPERATION_FAILED", .BatchOperationFailedError),
   ("SEARCH_FAILED", .SearchFailedError),
   ("INTERNAL_ERROR", .InternalError)]

/-- C1 (counterexample to the claim as stated): the claim speaks of "the 20
defined ErrorCode values" and a lookup table of "20 entries, one per
ErrorCode value", but the `ErrorCode` union has 21 distinct members and the
switch of `createBrightError` recognizes all 21 of them. -/
theorem C1_counterexample :
    (ErrorCodeValues.filter (fun c => (codeDispatch "m" c none).isSome)).length = 21 ∧
    ErrorCodeValues.Nodup ∧ ErrorCodeValues.length ≠ 20 := by
  refine ⟨by decide, by decide, by decide⟩

/-- C1 (amended: 21 codes, not 20): for each defined `ErrorCode` value and
every status code, `createBrightError` returns the single concrete variant
the lookup table associates to that code; the result is independent of the
status code (the fallback table is never consulted), and distinct codes map
to distinct concrete variants. -/
theorem C1_code_dispatch_total :
    codeVariants.map Prod.fst = ErrorCodeValues ∧
    codeVariants.length = 21 ∧
    (codeVariants.map Prod.snd).Nodup ∧
    ∀ p ∈ codeVariants, ∀ (s s' : Int) (msg : String) (d : Option Details),
      (createBrightError s ⟨msg, some p.1, d⟩).cls = p.2 ∧
      createBrightError s ⟨msg, some p.1, d⟩ = createBrightError s' ⟨msg, some p.1, d⟩ := by
  refine ⟨by decide, by decide, by decide, ?_⟩
  intro p hp
  fin_cases hp <;> exact fun s s' msg d => ⟨rfl, rfl⟩

/-- Witness for C1 at `NOT_LEADER` with status 418: classification ignores
the status and produces the `NotLeaderError` variant. -/
theorem C1_witness :
    (createBrightError 418 ⟨"m", some "NOT_LEADER", none⟩).cls = ErrClass.NotLeaderError ∧
    createBrightError 418 ⟨"m", some "NOT_LEADER", none⟩ =
      createBrightError 500 ⟨"m", some "NOT_LEADER", none⟩ :=
  C1_code_dispatch_total.2.2.2 ("NOT_LEADER", ErrClass.NotLeaderError) (by decide) 418 500 "m" none

/-- Whether the envelope's code is truthy and hits the lookup table of
`createBrightError`. -/
def recognizedCode (resp : BrightErrorResponse) : Bool :=
  match resp.code with
  | some c => c ≠ "" && (codeDispatch resp.error c resp.details).isSome
  | none => false

/-- C2 (counterexample to the claim as stated): with `code` present, the
claim demands `.statusCode` recover the original status, but a recognized
code fixes the variant's canonical status: status 418 with code
`MISSING_PARAMETER` classifies with `.statusCode = 400`, not 418. -/
theorem C2_counterexample :
    (createBrightError 418 ⟨"boom", some "MISSING_PARAMETER", none⟩).statusCode = 400 ∧
    (createBrightError 418 ⟨"boom", some "MISSING_PARAMETER", none⟩).statusCode ≠ 418 := by
  refine ⟨by decide, by decide⟩

/-- C2 (amended): `.code` always round-trips the envelope's code; `.statusCode`
round-trips the wire status exactly when the status fallback applies (code
absent, falsy, or not in the table); when the code is recognized, the result
— including `.statusCode`, which becomes the code's canonical status — is
independent of the wire status. -/
theorem C2_roundtrip (s : Int) (resp : BrightErrorResponse) :
    (createBrightError s resp).code = resp.code ∧
    (recognizedCode resp = false → (createBrightError s resp).statusCode = s) ∧
    (recognizedCode resp = true → ∀ s' : Int, createBrightError s resp = createBrightError s' resp) := by
  rcases resp with ⟨msg, co, d⟩
  rcases co with _ | c
  · refine ⟨?_, fun _ => ?_, fun hrec _ => ?_⟩
    · rw [createBrightError_noCode, statusFallback_code]
    · rw [createBrightError_noCode, statusFallback_statusCode]
    · simp [recognizedCode] at hrec
  · by_cases hc : c = ""
    · subst hc
      have hdisp : codeDispatch msg "" d = none := rfl
      refine ⟨?_, fun _ => ?_, fun hrec _ => ?_⟩
      · rw [createBrightError_missDispatch _ _ _ _ hdisp, statusFallback_code]
      · rw [createBrightError_missDispatch _ _ _ _ hdisp, statusFallback_statusCode]
      · simp [recognizedCode] at hrec
    · rcases hdisp : codeDispatch msg c d with _ | e
      · refine ⟨?_, fun _ => ?_, fun hrec _ => ?_⟩
        · rw [createBrightError_missDispatch _ _ _ _ hdisp, statusFallback_code]
        · rw [createBrightError_missDispatch _ _ _ _ hdisp, statusFallback_statusCode]
        · simp [recognizedCode, hdisp] at hrec
      · refine ⟨?_, fun hrec => ?_, fun _ s' => ?_⟩
        · rw [createBrightError_dispatch _ _ _ _ _ hc hdisp]
          exact codeDispatch_code msg c d e hdisp
        · simp [recognizedCode, hc, hdisp] at hrec
        · rw [createBrightError_dispatch _ _ _ _ _ hc hdisp,
            createBrightError_dispatch _ _ _ _ _ hc hdisp]

/-- Witness for C2: a 404 envelope with no code round-trips its status, and a
recognized `DOCUMENT_NOT_FOUND` code is classified independently of the wire
status. -/
theorem C2_witness :
    (createBrightError 418 ⟨"gone", none, none⟩).statusCode = 418 ∧
    createBrightError 418 ⟨"gone", some "DOCUMENT_NOT_FOUND", none⟩ =
      createBrightError 503 ⟨"gone", some "DOCUMENT_NOT_FOUND", none⟩ :=
  ⟨(C2_roundtrip 418 ⟨"gone", none, none⟩).2.1 (by decide),
   (C2_roundtrip 418 ⟨"gone", some "DOCUMENT_NOT_FOUND", none⟩).2.2 (by decide) 503⟩

/-- C3: a code that misses the lookup table falls through to the six-way
status dispatch rather than failing: at status 404 it yields the not-found
category (`NotFoundError`), not the generic base; only when the status also
matches none of 400, 404, 403, 409, 307, 503, 500 is the generic
`BrightError` returned, carrying the raw status, code and details. -/
theorem C3_unknown_code_fallback (s : Int) (msg c : String) (d : Option Details)
    (h : codeDispatch msg c d = none) :
    createBrightError s ⟨msg, some c, d⟩ = statusFallback s msg (some c) d ∧
    (createBrightError 404 ⟨msg, some c, d⟩).cls = ErrClass.NotFoundError ∧
    (s ∉ ([400, 404, 403, 409, 307, 503, 500] : List Int) →
      createBrightError s ⟨msg, some c, d⟩ = BrightError msg s (some c) d) := by
  refine ⟨createBrightError_missDispatch s msg c d h, ?_, fun hs => ?_⟩
  · rw [createBrightError_missDispatch 404 msg c d h]
    rfl
  · simp only [List.mem_cons, List.not_mem_nil, or_false, not_or] at hs
    obtain ⟨h400, h404, h403, h409, h307, h503, h500⟩ := hs
    rw [createBrightError_missDispatch s msg c d h]
    unfold statusFallback
    simp [h400, h404, h403, h409, h307, h503, h500]

/-- Witness for C3: the future code `QUOTA_EXCEEDED` with status 404
classifies as `NotFoundError`, and with status 418 as the generic base
error carrying status, code and details verbatim. -/
theorem C3_witness :
    createBrightError 418 ⟨"nope", some "QUOTA_EXCEEDED", none⟩ =
      statusFallback 418 "nope" (some "QUOTA_EXCEEDED") none ∧
    (createBrightError 404 ⟨"nope", some "QUOTA_EXCEEDED", none⟩).cls = ErrClass.NotFoundError ∧
    createBrightError 418 ⟨"nope", some "QUOTA_EXCEEDED", none⟩ =
      BrightError "nope" 418 (some "QUOTA_EXCEEDED") none := by
  have h := C3_unknown_code_fallback 418 "nope" "QUOTA_EXCEEDED" none (by decide)
  exact ⟨h.1, h.2.1, h.2.2 (by decide)⟩

/-- The per-entry clause demanded by the claim wording of C4: skip
`undefined`, `field:value` for a bare scalar or a `{value}` object without
boost, `field:value^boost` whenever the entry carries a boost. -/
def claimFilterClause : String × FilterVal → Option String
  | (_, .undefined) => none
  | (k, .scalar v) => some (k ++ ":" ++ jsToString v)
  | (k, .withValue v none) => some (k ++ ":" ++ jsToString v)
  | (k, .withValue v (some b)) => some (k ++ ":" ++ jsToString v ++ "^" ++ toString b)

/-- The per-entry clause the code actually emits: as `claimFilterClause`,
except that a boost of 0 (falsy in JS) takes the bare form. -/
def amendedFilterClause : String × FilterVal → Option String
  | (_, .undefined) => none
  | (k, .scalar v) => some (k ++ ":" ++ jsToString v)
  | (k, .withValue v none) => some (k ++ ":" ++ jsToString v)
  | (k, .withValue v (some b)) =>
    some (if b ≠ 0 then k ++ ":" ++ jsToString v ++ "^" ++ toString b
          else k ++ ":" ++ jsToString v)

/-- The first loop of `buildQueryFromFilters` emits exactly one
`amendedFilterClause` per entry, in order. -/
theorem filterEntryClauses_eq_toList (pr : String × FilterVal) :
    filterEntryClauses pr = (amendedFilterClause pr).toList := by
  rcases pr with ⟨k, v⟩
  rcases v with _ | v | ⟨v, _ | b⟩
  · rfl
  · rfl
  · rfl
  · by_cases hb : b = 0 <;> simp [filterEntryClauses, amendedFilterClause, hb]

/-- Flattening the option-valued clauses of a map is a `filterMap`. -/
theorem flatten_map_toList {α β : Type} (f : α → Option β) (l : List α) :
    (l.map (fun x => (f x).toList)).flatten = l.filterMap f := by
  induction l with
  | nil => rfl
  | cons a t ih => cases h : f a <;> simp [List.filterMap_cons, h, ih]

/-- C4 (counterexample to the claim as stated): an entry carrying the
defined boost 0 compiles without the `^0` suffix, because the code tests JS
truthiness rather than definedness. -/
theorem C4_counterexample :
    buildQueryFromFilters (some [("f", FilterVal.withValue (Scalar.num 5) (some 0))]) none
      = "f:5" ∧
    " ".intercalate (([("f", FilterVal.withValue (Scalar.num 5) (some 0))]).filterMap
      claimFilterClause) = "f:5^0" ∧
    buildQueryFromFilters (some [("f", FilterVal.withValue (Scalar.num 5) (some 0))]) none ≠
      " ".intercalate (([("f", FilterVal.withValue (Scalar.num 5) (some 0))]).filterMap
        claimFilterClause) := by
  refine ⟨by decide, by decide, by decide⟩

/-- C4 (amended: a boost of 0, though defined, is falsy and emits the bare
form): the compiler emits one clause per entry in order — `field:value` for
defined bare scalars (including 0, false and the empty string),
`field:value^boost` for entries carrying a truthy boost — and skips exactly
the entries whose value is undefined. -/
theorem C4_filter_clauses (fs : List (String × FilterVal)) :
    buildQueryFromFilters (some fs) none =
      " ".intercalate (fs.filterMap amendedFilterClause) ∧
    ∀ pr ∈ fs, ((amendedFilterClause pr).isSome = true ↔ pr.2 ≠ FilterVal.undefined) := by
  constructor
  · unfold buildQueryFromFilters
    simp only [funext filterEntryClauses_eq_toList, flatten_map_toList, List.append_nil]
  · intro pr _
    rcases pr with ⟨k, v⟩
    rcases v with _ | v | ⟨v, _ | b⟩ <;> simp [amendedFilterClause]

/-- Witness for C4 on a filter mixing falsy-but-present values, an undefined
entry and a boosted entry. -/
theorem C4_witness :
    buildQueryFromFilters
        (some [("a", FilterVal.scalar (Scalar.num 0)),
               ("b", FilterVal.scalar (Scalar.bool false)),
               ("c", FilterVal.scalar (Scalar.str "")),
               ("d", FilterVal.undefined),
               ("e", FilterVal.withValue (Scalar.num 7) (some 2))]) none =
      " ".intercalate
        (([("a", FilterVal.scalar (Scalar.num 0)),
           ("b", FilterVal.scalar (Scalar.bool false)),
           ("c", FilterVal.scalar (Scalar.str "")),
           ("d", FilterVal.undefined),
           ("e", FilterVal.withValue (Scalar.num 7) (some 2))]).filterMap amendedFilterClause) ∧
    ((amendedFilterClause ("d", FilterVal.undefined)).isSome = true ↔
      ("d", FilterVal.undefined).2 ≠ FilterVal.undefined) :=
  ⟨(C4_filter_clauses _).1,
   (C4_filter_clauses
      [("a", FilterVal.scalar (Scalar.num 0)),
       ("b", FilterVal.scalar (Scalar.bool false)),
       ("c", FilterVal.scalar (Scalar.str "")),
       ("d", FilterVal.undefined),
       ("e", FilterVal.withValue (Scalar.num 7) (some 2))]).2
     ("d", FilterVal.undefined) (by decide)⟩

/-- C5 (counterexample to the claim as stated): the `field` helper with the
defined boost 0 compiles to `price:10`, not `price:10^0` — the suffix is
governed by truthiness, not definedness. -/
theorem C5_counterexample :
    field "price" (Scalar.num 10) (some 0) = "price:10" ∧
    field "price" (Scalar.num 10) (some 0) ≠ "price:10^0" := by
  refine ⟨by decide, by decide⟩

/-- C5 (amended): the `^boost` suffix is appended exactly when the boost is
truthy (defined and nonzero), both in the compiled filter clauses and in the
`field` query-builder helper; a boost of 0 or an absent boost compiles to
the bare `field:value`. -/
theorem C5_boost_suffix (name : String) (v : Scalar) :
    field name v none = name ++ ":" ++ jsToString v ∧
    field name v (some 0) = name ++ ":" ++ jsToString v ∧
    (∀ b : Int, b ≠ 0 →
      field name v (some b) = name ++ ":" ++ jsToString v ++ "^" ++ toString b) ∧
    filterEntryClauses (name, FilterVal.withValue v none) = [name ++ ":" ++ jsToString v] ∧
    filterEntryClauses (name, FilterVal.withValue v (some 0)) = [name ++ ":" ++ jsToString v] ∧
    (∀ b : Int, b ≠ 0 →
      filterEntryClauses (name, FilterVal.withValue v (some b)) =
        [name ++ ":" ++ jsToString v ++ "^" ++ toString b]) := by
  refine ⟨rfl, by simp [field], fun b hb => ?_, rfl, by simp [filterEntryClauses],
    fun b hb => ?_⟩
  · simp [field, hb]
  · simp [filterEntryClauses, hb]

/-- Witness for C5: `field('price', 10, 2)` compiles to `price:10^2`. -/
theorem C5_witness :
    field "price" (Scalar.num 10) (some 2) = "price" ++ ":" ++ jsToString (Scalar.num 10)
      ++ "^" ++ toString (2 : Int) :=
  (C5_boost_suffix "price" (Scalar.num 10)).2.2.1 2 (by decide)

/-- C6: the range loop emits one clause per defined bound and nothing for
undefined bounds, in the fixed order `gt, gte, lt, lte`, formatted
`field:>x`, `field:>=x`, `field:<x`, `field:<=x`; the standalone `range`
query-builder helper produces the same clauses, `{gte: 10, lt: 100}`
compiles to exactly `price:>=10 price:<100`, and the compiled query for a
single range entry coincides with the helper's output. -/
theorem C6_range_clauses (k : String) (r : RangeFilter) :
    rangeEntryClauses (k, RangeVal.bounds r) =
      r.gt.toList.map (fun x => k ++ ":>" ++ jsToString x) ++
      r.gte.toList.map (fun x => k ++ ":>=" ++ jsToString x) ++
      r.lt.toList.map (fun x => k ++ ":<" ++ jsToString x) ++
      r.lte.toList.map (fun x => k ++ ":<=" ++ jsToString x) ∧
    rangeEntryClauses (k, RangeVal.undefined) = [] ∧
    range k r = " ".intercalate (rangeEntryClauses (k, RangeVal.bounds r)) ∧
    buildQueryFromFilters none (some [(k, RangeVal.bounds r)]) = range k r ∧
    range "price" ⟨none, some (Scalar.num 10), some (Scalar.num 100), none⟩ =
      "price:>=10 price:<100" := by
  refine ⟨?_, rfl, rfl, ?_, by decide⟩
  · rcases r with ⟨gt, gte, lt, lte⟩
    rcases gt with _ | g <;> rcases gte with _ | ge <;> rcases lt with _ | l <;>
      rcases lte with _ | le <;> rfl
  · unfold buildQueryFromFilters range
    simp [rangeEntryClauses]

/-- C8: the object sort form with order `desc` and the descending-prefixed
string form normalize to the same token; a bare field name, the object form
with order `asc`, and the object form with order omitted all normalize to
the bare field name. -/
theorem C8_sort_normalization (f : String) :
    normalizeSortField (SortField.obj f (some SortOrder.desc)) =
      normalizeSortField (SortField.str ("-" ++ f)) ∧
    normalizeSortField (SortField.obj f (some SortOrder.desc)) = "-" ++ f ∧
    normalizeSortField (SortField.str f) = f ∧
    normalizeSortField (SortField.obj f (some SortOrder.asc)) = f ∧
    normalizeSortField (SortField.obj f none) = f := by
  refine ⟨rfl, rfl, rfl, ?_, ?_⟩ <;> simp [normalizeSortField]

/-- C9: `indexExists` and `ingressExists` return `true` when the underlying
fetch succeeds, return `false` exactly on errors of the not-found category
(`NotFoundError` or one of its subclasses, per `instanceof`), and re-raise
every other error unchanged; the not-found category consists precisely of
`NotFoundError`, `IndexNotFoundError` and `DocumentNotFoundError`. -/
theorem C9_exists_probes (r : Except BrightErrorVal Unit) :
    (∀ a, r = Except.ok a → indexExists r = Except.ok true ∧ ingressExists r = Except.ok true) ∧
    (∀ e, r = Except.error e →
      (instanceOfCls e.cls ErrClass.NotFoundError = true →
        indexExists r = Except.ok false ∧ ingressExists r = Except.ok false) ∧
      (instanceOfCls e.cls ErrClass.NotFoundError = false →
        indexExists r = Except.error e ∧ ingressExists r = Except.error e)) ∧
    (∀ k : ErrClass, instanceOfCls k ErrClass.NotFoundError =
      (k == ErrClass.NotFoundError || k == ErrClass.IndexNotFoundError ||
        k == ErrClass.DocumentNotFoundError)) := by
  refine ⟨fun a ha => ?_, fun e he => ⟨fun hin => ?_, fun hout => ?_⟩, fun k => ?_⟩
  · subst ha; exact ⟨rfl, rfl⟩
  · subst he; simp [indexExists, ingressExists, hin]
  · subst he; simp [indexExists, ingressExists, hout]
  · cases k <;> rfl

/-- Witness for C9: an `IndexNotFoundError` becomes `false`, an
`AuthorizationError` propagates unchanged, a success becomes `true`. -/
theorem C9_witness :
    indexExists (Except.error (IndexNotFoundError "missing" none)) = Except.ok false ∧
    ingressExists (Except.error (AuthorizationError "denied" none none)) =
      Except.error (AuthorizationError "denied" none none) ∧
    indexExists (Except.ok ()) = Except.ok true :=
  ⟨(((C9_exists_probes (Except.error (IndexNotFoundError "missing" none))).2.1
      (IndexNotFoundError "missing" none) rfl).1 (by decide)).1,
   (((C9_exists_probes (Except.error (AuthorizationError "denied" none none))).2.1
      (AuthorizationError "denied" none none) rfl).2 (by decide)).2,
   ((C9_exists_probes (Except.ok ())).1 () rfl).1⟩


/-- `join(' ')` on a one-element array is its element. -/
theorem intercalate_singleton (s : String) : " ".intercalate [s] = s := by
  simp [String.intercalate, String.intercalate.go]

/-- `join(' ')` on a two-element array separates by a single space. -/
theorem intercalate_pair (a b : String) : " ".intercalate [a, b] = a ++ " " ++ b := by
  simp [String.intercalate, String.intercalate.go]

/-- No pair appended after the query parameter carries the key `q`. -/
theorem searchTail_keys (params : Option SearchParams) :
    ∀ pr ∈ searchTail params, pr.1 ≠ "q" := by
  intro pr hpr
  unfold searchTail at hpr
  simp only [List.mem_append] at hpr
  rcases hpr with (((((h | h) | h) | h) | h) | h)
  · rcases ho : params.bind SearchParams.offset with _ | n <;> rw [ho] at h
    · simp at h
    · split at h <;> simp at h
      rw [h.2]; exact (by decide : ("offset" : String) ≠ "q")
  · rcases ho : params.bind SearchParams.limit with _ | n <;> rw [ho] at h
    · simp at h
    · split at h <;> simp at h
      rw [h.2]; exact (by decide : ("limit" : String) ≠ "q")
  · rcases ho : params.bind SearchParams.page with _ | n <;> rw [ho] at h
    · simp at h
    · split at h <;> simp at h
      rw [h.2]; exact (by decide : ("page" : String) ≠ "q")
  · rcases ho : params.bind SearchParams.sort with _ | ss <;> rw [ho] at h
    · simp at h
    · simp only [List.mem_map] at h
      obtain ⟨x, _, hx⟩ := h
      rw [← hx]; exact (by decide : ("sort[]" : String) ≠ "q")
  · rcases ho : params.bind SearchParams.attributesToRetrieve with _ | attrs <;> rw [ho] at h
    · simp at h
    · simp only [List.mem_map] at h
      obtain ⟨x, _, hx⟩ := h
      rw [← hx]; exact (by decide : ("attributesToRetrieve[]" : String) ≠ "q")
  · rcases ho : params.bind SearchParams.attributesToExclude with _ | attrs <;> rw [ho] at h
    · simp at h
    · simp only [List.mem_map] at h
      obtain ⟨x, _, hx⟩ := h
      rw [← hx]; exact (by decide : ("attributesToExclude[]" : String) ≠ "q")


/-- C7: the compiled query places a (truthy) free-text `q` first, followed by
the filter and range clauses, adjacent parts separated by a single space; the
`q` query parameter is the first appended pair and is omitted entirely when
the concatenated result is empty, and no later pair uses the key `q`. -/
theorem C7_query_assembly (params : Option SearchParams) :
    (∀ s, params.bind SearchParams.q = some s → s ≠ "" →
      (buildQueryFromFilters (params.bind SearchParams.filter)
          (params.bind SearchParams.range) = "" →
        fullQueryOf params = s) ∧
      (buildQueryFromFilters (params.bind SearchParams.filter)
          (params.bind SearchParams.range) ≠ "" →
        fullQueryOf params = s ++ " " ++ buildQueryFromFilters
          (params.bind SearchParams.filter) (params.bind SearchParams.range))) ∧
    ((params.bind SearchParams.q = none ∨ params.bind SearchParams.q = some "") →
      fullQueryOf params = buildQueryFromFilters (params.bind SearchParams.filter)
        (params.bind SearchParams.range)) ∧
    searchParamsList params =
      (if fullQueryOf params = "" then [] else [("q", fullQueryOf params)]) ++
        searchTail params ∧
    ∀ pr ∈ searchTail params, pr.1 ≠ "q" := by
  refine ⟨fun s hq hs => ⟨fun hfq => ?_, fun hfq => ?_⟩, fun hq => ?_, ?_,
    searchTail_keys params⟩
  · simp [fullQueryOf, hq, hs, hfq, intercalate_singleton]
  · simp [fullQueryOf, hq, hs, hfq, intercalate_pair]
  · rcases hq with hq | hq <;>
    · by_cases hf : buildQueryFromFilters (params.bind SearchParams.filter)
        (params.bind SearchParams.range) = "" <;>
        simp [fullQueryOf, hq, hf, intercalate_singleton, String.intercalate,
          String.intercalate.go]
  · by_cases hf : fullQueryOf params = "" <;> simp [searchParamsList, hf]


/-- Witness for C7: `q = "hello"` with one filter clause compiles to
`hello f:x`, free text first, space-separated. -/
theorem C7_witness :
    fullQueryOf
      (some { q := some "hello",
              filter := some [("f", FilterVal.scalar (Scalar.str "x"))] }) = "hello f:x" := by
  have h := ((C7_query_assembly
    (some { q := some "hello",
            filter := some [("f", FilterVal.scalar (Scalar.str "x"))] })).1
    "hello" rfl (by decide)).2 (by decide)
  rw [h]; decide

/-- C10: `offset`, `limit` and `page` are serialized only when truthy — a
supplied 0 yields the same request parameters as an absent value, as does a
free-text `q` equal to the empty string — while a truthy value is appended;
in contrast, a falsy-but-present filter value is preserved in the query. -/
theorem C10_pagination_truthiness (p : SearchParams) :
    searchParamsList (some { p with offset := some 0 }) =
      searchParamsList (some { p with offset := none }) ∧
    searchParamsList (some { p with limit := some 0 }) =
      searchParamsList (some { p with limit := none }) ∧
    searchParamsList (some { p with page := some 0 }) =
      searchParamsList (some { p with page := none }) ∧
    searchParamsList (some { p with q := some "" }) =
      searchParamsList (some { p with q := none }) ∧
    (∀ n : Int, n ≠ 0 →
      ("offset", toString n) ∈ searchParamsList (some { p with offset := some n }) ∧
      ("limit", toString n) ∈ searchParamsList (some { p with limit := some n }) ∧
      ("page", toString n) ∈ searchParamsList (some { p with page := some n })) ∧
    searchParamsList (some { filter := some [("f", FilterVal.scalar (Scalar.num 0))] }) =
      [("q", "f:0")] := by
  refine ⟨?_, ?_, ?_, ?_, fun n hn => ⟨?_, ?_, ?_⟩, by decide⟩
  · simp [searchParamsList, searchTail, fullQueryOf]
  · simp [searchParamsList, searchTail, fullQueryOf]
  · simp [searchParamsList, searchTail, fullQueryOf]
  · simp [searchParamsList, searchTail, fullQueryOf]
  · simp [searchParamsList, searchTail, hn]
  · simp [searchParamsList, searchTail, hn]
  · simp [searchParamsList, searchTail, hn]


/-- Witness for C10: a truthy offset of 5 is serialized. -/
theorem C10_witness :
    ("offset", toString (5 : Int)) ∈
      searchParamsList (some { ({} : SearchParams) with offset := some 5 }) :=
  ((C10_pagination_truthiness {}).2.2.2.2.1 5 (by decide)).1

end BrightJs
